import Mathlib

/-!
Verification model of the PostTideAI caption-generation endpoint
(`src/app/api/generate-posts/route.ts`).

The endpoint's pipeline is embedded shallowly:
* a JSON model (`Json`) together with a parser `jsonParse` embedding the
  behaviour of JavaScript's `JSON.parse` on the texts the handler sees
  (strings are modelled as their lists of UTF-16 code units; numbers keep
  their raw lexeme — only the zero/non-zero distinction of a numeric value
  is consumed by the handler, via JS truthiness);
* `extractJson` embedding the recovery helper (fence stripping, trim,
  first-`{`-to-last-`}` span);
* `runAttempt`/`genLoop` embedding the two-attempt parse/retry loop of the
  `POST` handler, including the JavaScript `break`/exception semantics of
  `parsedCaptions = attemptCaps.captions; break;`;
* `fetchUnsplashImage` and `POST` embedding the image lookup and the full
  handler, with the external world (session, request body, provider
  replies, image-service outcome) passed in as explicit data.
-/

/-! ### Characters and small string utilities -/

/-- The backtick character (code 96), named to keep the source readable. -/
def btC : Char := Char.ofNat 96

/-- The double-quote character (code 34). -/
def quoteC : Char := Char.ofNat 34

/-- The backslash character (code 92). -/
def bslashC : Char := Char.ofNat 92

/-- Left curly brace (code 123). -/
def lbraceC : Char := Char.ofNat 123

/-- Right curly brace (code 125). -/
def rbraceC : Char := Char.ofNat 125

/-- Left square bracket (code 91). -/
def lbrackC : Char := Char.ofNat 91

/-- Right square bracket (code 93). -/
def rbrackC : Char := Char.ofNat 93

/-- JSON whitespace (the four characters `JSON.parse` skips between tokens). -/
def jsonWsChar (c : Char) : Bool :=
  c = ' ' || c = Char.ofNat 9 || c = Char.ofNat 10 || c = Char.ofNat 13

/-- Whitespace stripped by JavaScript `String.prototype.trim` (WhiteSpace and
LineTerminator code points). -/
def jsTrimWs (c : Char) : Bool :=
  [9, 10, 11, 12, 13, 32, 160, 0x1680, 0x202F, 0x205F, 0x3000,
    0x2028, 0x2029, 0xFEFF].contains c.toNat
  || (0x2000 ≤ c.toNat && c.toNat ≤ 0x200A)

/-- Drop JSON whitespace from the front of a character list. -/
def skipWs (l : List Char) : List Char := l.dropWhile jsonWsChar

/-! ### The JSON value model

String values (and object keys) are the list of their UTF-16 code units,
which is what JavaScript strings are. Numbers keep their source lexeme; the
handler only ever consumes a number through JS truthiness (zero or not), so
no floating-point evaluation is modelled (decimal literals whose every
significand digit is `0` are exactly the falsy ones, up to denormal
underflow, which no claim exercises). -/

inductive Json where
  | null : Json
  | bool (b : Bool) : Json
  | num (lexeme : List Char) : Json
  | str (units : List Nat) : Json
  | arr (elems : List Json) : Json
  | obj (fields : List (List Nat × Json)) : Json
deriving Repr

/-! ### The parser: model of `JSON.parse`

`parseValue fuel l` parses one JSON value from the front of `l` and returns
it with the unconsumed remainder; `fuel` only bounds recursion depth and
`l.length + 1` always suffices (every unit of fuel spent consumes at least
one character first). `jsonParse` then requires the remainder to be JSON
whitespace, as `JSON.parse` does. -/

/-- Value of a hexadecimal digit, for `\uXXXX` escapes. -/
def hexVal (c : Char) : Option Nat :=
  if c.isDigit then some (c.toNat - 48)
  else if 97 ≤ c.toNat ∧ c.toNat ≤ 102 then some (c.toNat - 87)
  else if 65 ≤ c.toNat ∧ c.toNat ≤ 70 then some (c.toNat - 55)
  else none

/-- Code unit contributed by a single-character escape, per the JSON
grammar (`\" \\ \/ \b \f \n \r \t`). -/
def escCode (e : Char) : Option Nat :=
  if e = quoteC then some 34
  else if e = bslashC then some 92
  else if e = '/' then some 47
  else if e = 'b' then some 8
  else if e = 'f' then some 12
  else if e = 'n' then some 10
  else if e = 'r' then some 13
  else if e = 't' then some 9
  else none

/-- Parse the body of a JSON string (the opening quote already consumed),
returning the decoded code units and the remainder after the closing
quote. -/
def parseStringBody : List Char → Option (List Nat × List Char)
  | [] => none
  | c :: rest =>
    if c = quoteC then some ([], rest)
    else if c = bslashC then
      match rest with
      | [] => none
      | e :: r2 =>
        match escCode e with
        | some n =>
          match parseStringBody r2 with
          | some (u, r) => some (n :: u, r)
          | none => none
        | none =>
          if e = 'u' then
            match r2 with
            | h1 :: h2 :: h3 :: h4 :: r6 =>
              match hexVal h1, hexVal h2, hexVal h3, hexVal h4 with
              | some a, some b, some c2, some d =>
                match parseStringBody r6 with
                | some (u, r) => some ((a * 4096 + b * 256 + c2 * 16 + d) :: u, r)
                | none => none
              | _, _, _, _ => none
            | _ => none
          else none
    else if c.toNat < 32 then none
    else
      match parseStringBody rest with
      | some (u, r) => some (c.toNat :: u, r)
      | none => none

/-- The integer part of a JSON number: `0`, or a nonzero digit followed by
digits (the grammar forbids leading zeros). -/
def parseIntPart : List Char → Option (List Char × List Char)
  | [] => none
  | c :: rest =>
    if c = '0' then some ([c], rest)
    else if c.isDigit then
      some (c :: rest.takeWhile Char.isDigit, rest.dropWhile Char.isDigit)
    else none

/-- The optional fraction part of a JSON number (`.` then one or more
digits); yields `[]` when absent. -/
def parseFracPart : List Char → Option (List Char × List Char)
  | [] => some ([], [])
  | c :: rest =>
    if c = '.' then
      match rest.takeWhile Char.isDigit with
      | [] => none
      | ds => some ('.' :: ds, rest.dropWhile Char.isDigit)
    else some ([], c :: rest)

/-- The optional exponent part of a JSON number (`e`/`E`, optional sign, one
or more digits); yields `[]` when absent. -/
def parseExpPart : List Char → Option (List Char × List Char)
  | [] => some ([], [])
  | c :: rest =>
    if c = 'e' ∨ c = 'E' then
      let (sgn, r1) :=
        match rest with
        | s :: r => if s = '+' ∨ s = '-' then ([s], r) else (([] : List Char), s :: r)
        | [] => (([] : List Char), ([] : List Char))
      match r1.takeWhile Char.isDigit with
      | [] => none
      | ds => some (c :: (sgn ++ ds), r1.dropWhile Char.isDigit)
    else some ([], c :: rest)

/-- Parse a JSON number lexeme from the front of the input. -/
def parseNumber (l : List Char) : Option (Json × List Char) :=
  let (sgn, l1) :=
    match l with
    | c :: rest => if c = '-' then ([c], rest) else (([] : List Char), c :: rest)
    | [] => (([] : List Char), ([] : List Char))
  match parseIntPart l1 with
  | none => none
  | some (ip, l2) =>
    match parseFracPart l2 with
    | none => none
    | some (fp, l3) =>
      match parseExpPart l3 with
      | none => none
      | some (ep, l4) => some (Json.num (sgn ++ ip ++ fp ++ ep), l4)

mutual

/-- Parse one JSON value from the front of the input (first character must
begin the value; interior whitespace is handled at each recursion site). -/
def parseValue : Nat → List Char → Option (Json × List Char)
  | 0, _ => none
  | Nat.succ fuel, l =>
    match l with
    | [] => none
    | c :: rest =>
      if c = quoteC then
        match parseStringBody rest with
        | some (u, r) => some (Json.str u, r)
        | none => none
      else if c = lbraceC then
        match skipWs rest with
        | d :: r2 =>
          if d = rbraceC then some (Json.obj [], r2)
          else parseMembers fuel (d :: r2) []
        | [] => none
      else if c = lbrackC then
        match skipWs rest with
        | d :: r2 =>
          if d = rbrackC then some (Json.arr [], r2)
          else parseElements fuel (d :: r2) []
        | [] => none
      else if c = 't' then
        match rest with
        | r1 :: r2 :: r3 :: rr =>
          if r1 = 'r' ∧ r2 = 'u' ∧ r3 = 'e' then some (Json.bool true, rr) else none
        | _ => none
      else if c = 'f' then
        match rest with
        | r1 :: r2 :: r3 :: r4 :: rr =>
          if r1 = 'a' ∧ r2 = 'l' ∧ r3 = 's' ∧ r4 = 'e' then some (Json.bool false, rr)
          else none
        | _ => none
      else if c = 'n' then
        match rest with
        | r1 :: r2 :: r3 :: rr =>
          if r1 = 'u' ∧ r2 = 'l' ∧ r3 = 'l' then some (Json.null, rr) else none
        | _ => none
      else if c = '-' ∨ c.isDigit then parseNumber (c :: rest)
      else none

/-- Parse the members of a JSON object (input begins at a key; the opening
brace is already consumed and the object is known to be non-empty),
accumulating the key/value pairs in order of appearance. -/
def parseMembers : Nat → List Char → List (List Nat × Json) →
    Option (Json × List Char)
  | 0, _, _ => none
  | Nat.succ fuel, l, acc =>
    match l with
    | [] => none
    | c :: rest =>
      if c = quoteC then
        match parseStringBody rest with
        | some (k, r1) =>
          match skipWs r1 with
          | d :: r3 =>
            if d = ':' then
              match parseValue fuel (skipWs r3) with
              | some (v, r4) =>
                match skipWs r4 with
                | e :: r6 =>
                  if e = ',' then parseMembers fuel (skipWs r6) (acc ++ [(k, v)])
                  else if e = rbraceC then some (Json.obj (acc ++ [(k, v)]), r6)
                  else none
                | [] => none
              | none => none
            else none
          | [] => none
        | none => none
      else none

/-- Parse the elements of a JSON array (input begins at the first element;
the opening bracket is already consumed and the array is known to be
non-empty). -/
def parseElements : Nat → List Char → List Json → Option (Json × List Char)
  | 0, _, _ => none
  | Nat.succ fuel, l, acc =>
    match parseValue fuel l with
    | some (v, r1) =>
      match skipWs r1 with
      | e :: r3 =>
        if e = ',' then parseElements fuel (skipWs r3) (acc ++ [v])
        else if e = rbrackC then some (Json.arr (acc ++ [v]), r3)
        else none
      | [] => none
    | none => none

end

/-- Model of `JSON.parse`: parse one value, allowing surrounding JSON
whitespace; anything else after the value is an error. -/
def jsonParse (l : List Char) : Option Json :=
  match parseValue (l.length + 1) (skipWs l) with
  | some (v, rest) => if rest.all jsonWsChar then some v else none
  | none => none

/-! ### `extractJson`: the recovery helper

Embeds
```
const withoutTicks = raw.replace(/```(?:json)?|```/gi, "").trim();
const match = withoutTicks.match(/{[\s\S]*}/);
return match ? match[0] : null;
```
The regex alternation reduces to "three backticks, optionally followed by
`json` case-insensitively"; the scan is left-to-right, resuming after each
removed match and advancing one character otherwise. The brace regex
matches from the first `{` to the last `}` of the whole string (greedy),
and fails when no `}` follows the first `{`. -/

/-- Do the four characters spell `json` case-insensitively? -/
def isJsonTag4 (d1 d2 d3 d4 : Char) : Bool :=
  d1.toLower = 'j' ∧ d2.toLower = 's' ∧ d3.toLower = 'o' ∧ d4.toLower = 'n'

/-- Fuelled scanner for `stripFences`: the fuel decreases by one per step
while each step consumes at least one character, so fuel `l.length` always
suffices and the `0` fallback is unreachable from `stripFences`. -/
def stripFencesGo : Nat → List Char → List Char
  | 0, l => l
  | Nat.succ _, [] => []
  | Nat.succ fuel, c :: rest =>
    if c = btC then
      match rest with
      | c2 :: c3 :: r3 =>
        if c2 = btC ∧ c3 = btC then
          match r3 with
          | d1 :: d2 :: d3 :: d4 :: r7 =>
            if isJsonTag4 d1 d2 d3 d4 then stripFencesGo fuel r7
            else stripFencesGo fuel r3
          | _ => stripFencesGo fuel r3
        else c :: stripFencesGo fuel rest
      | _ => c :: stripFencesGo fuel rest
    else c :: stripFencesGo fuel rest

/-- Remove every match of three backticks optionally followed by a
case-insensitive `json` tag, scanning left to right. -/
def stripFences (l : List Char) : List Char := stripFencesGo l.length l

/-- JavaScript `String.prototype.trim` on a character list. -/
def trimChars (l : List Char) : List Char :=
  ((l.dropWhile jsTrimWs).reverse.dropWhile jsTrimWs).reverse

/-- The span of `/{[\s\S]*}/`: from the first `{` to the last `}`, provided
some `}` occurs after the first `{`. -/
def braceSpan (l : List Char) : Option (List Char) :=
  match l.findIdx? (fun c => c = lbraceC) with
  | none => none
  | some i =>
    match l.reverse.findIdx? (fun c => c = rbraceC) with
    | none => none
    | some jr =>
      let j := l.length - 1 - jr
      if i < j then some ((l.drop i).take (j - i + 1)) else none

/-- Model of the `extractJson` helper of the route: strip fences, trim,
return the first-`{`-to-last-`}` span if any. -/
def extractJson (raw : List Char) : Option (List Char) :=
  braceSpan (trimChars (stripFences raw))

/-! ### JavaScript truthiness and property access -/

/-- Is a decimal numeric lexeme (mathematically) zero?  Exactly when every
digit of its significand (the part before any exponent) is `0`.  (Denormal
underflow such as `1e-400`, where IEEE evaluation also yields `0`, is not
modelled; no claim exercises it.) -/
def numIsZero (lexeme : List Char) : Bool :=
  ((lexeme.takeWhile (fun c => ¬(c = 'e' ∨ c = 'E'))).filter Char.isDigit).all
    (fun c => c = '0')

/-- JS falsiness of a `JSON.parse` result: `null`, `false`, `0`, and the
empty string are falsy; every object and array (even empty) is truthy. -/
def jsFalsy (v : Json) : Bool :=
  match v with
  | .null => true
  | .bool b => !b
  | .num lexeme => numIsZero lexeme
  | .str u => u.isEmpty
  | .arr _ => false
  | .obj _ => false

/-- JS falsiness of a possibly-undefined value (`none` models
`undefined`). -/
def jsFalsyOpt (v : Option Json) : Bool :=
  match v with
  | none => true
  | some j => jsFalsy j

/-- Is the value JSON `null`? (Property access on it throws in JS.) -/
def isNull (v : Json) : Bool :=
  match v with
  | .null => true
  | _ => false

/-- Last-binding lookup of a key among an object's fields: `JSON.parse`
keeps the value of the last duplicate key, which is what a subsequent
property read observes. -/
def lookupLast (fields : List (List Nat × Json)) (k : List Nat) : Option Json :=
  fields.foldl (fun acc p => if p.1 = k then some p.2 else acc) none

/-- JS property read `v.captions`-style on a parsed value: a field lookup on
objects, `undefined` (here `none`) on every non-object non-null value.
(The null case throws and is handled separately at the call sites.) -/
def getField (v : Json) (k : List Nat) : Option Json :=
  match v with
  | .obj fields => lookupLast fields k
  | _ => none

/-- The UTF-16 code units of a string, for keys and string values. -/
def strUnits (s : String) : List Nat := s.toList.map Char.toNat

/-- A JSON string value made from a Lean string. -/
def strVal (s : String) : Json := Json.str (strUnits s)

/-- The code units of the key `captions`. -/
def capKey : List Nat := strUnits ("captions")

/-! ### The two-attempt parse loop

Embeds, for one loop iteration of the handler,
```
try {
  const attemptCaps = JSON.parse(raw) as { captions: string[] };
  parsedCaptions = attemptCaps.captions;
  break;
} catch {
  const cleaned = extractJson(raw);
  if (cleaned) {
    try {
      const attemptCaps = JSON.parse(cleaned) as { captions: string[] };
      parsedCaptions = attemptCaps.captions;
      break;
    } catch { }
  }
}
```
Note the JavaScript semantics embedded here: a successful `JSON.parse`
whose result is not `null` always reaches `break` (the cast performs no
check, and property access on a non-object merely yields `undefined`),
while parsing to `null` makes `attemptCaps.captions` throw, which lands in
the `catch` exactly like a parse failure. -/

/-- Outcome of one loop iteration: `broke pc` means `break` was reached
with `parsedCaptions` set to `pc` (`none` = `undefined`/`null`), and
`fallthrough` means the iteration ended with `parsedCaptions` still null,
so the loop proceeds. -/
inductive AttemptResult where
  | broke (pc : Option Json)
  | fallthrough
deriving Repr

/-- The `catch` arm of one iteration: recovery parse of `extractJson raw`. -/
def recoverStep (raw : List Char) : AttemptResult :=
  match extractJson raw with
  | none => .fallthrough
  | some cleaned =>
    match jsonParse cleaned with
    | none => .fallthrough
    | some v => if isNull v then .fallthrough else .broke (getField v capKey)

/-- One full loop iteration on the raw reply text. -/
def runAttempt (raw : List Char) : AttemptResult :=
  match jsonParse raw with
  | none => recoverStep raw
  | some v => if isNull v then recoverStep raw else .broke (getField v capKey)

/-! ### The provider loop with its call trace -/

/-- A provider reply as the handler sees it: the whole
`openai.chat.completions.create` await either throws (`raise`) or yields a
completion whose message content is a string or null (`content`). (A
completion with no choices also throws at `choices[0].message`, which is
observationally the same as `raise`: the outer catch fires after that
call.) -/
inductive ProviderReply where
  | raise
  | content (c : Option (List Char))
deriving Repr

/-- `completion.choices[0].message?.content ?? "{}"`. -/
def rawOf (c : Option (List Char)) : List Char :=
  match c with
  | some l => l
  | none => [lbraceC, rbraceC]

/-- Integer value of a plain integer numeric lexeme (optional minus then
digits); `none` on anything else. Only the integer fragment of JS numeric
coercion is modelled: the handler multiplies the request's `length` by
40/30, and every claim about that product concerns integer counts. -/
def lexInt (lexeme : List Char) : Option Int :=
  match lexeme with
  | '-' :: ds =>
    if ds ≠ [] ∧ ds.all Char.isDigit then
      some (-(ds.foldl (fun a c => a * 10 + (c.toNat - 48)) 0 : Nat))
    else none
  | ds =>
    if ds ≠ [] ∧ ds.all Char.isDigit then
      some ((ds.foldl (fun a c => a * 10 + (c.toNat - 48)) 0 : Nat))
    else none

/-- Numeric value of a `JSON.parse` result when it is an integer literal. -/
def jsIntValue (v : Json) : Option Int :=
  match v with
  | .num lexeme => lexInt lexeme
  | _ => none

/-- The parameters of one `openai.chat.completions.create` call:
`temperature: attempt === 0 ? 0.6 : 0` and
`max_tokens: attempt === 0 ? length * 40 : length * 30` (the token budget
is `none` when `length` is not an integer literal — unmodelled coercion). -/
structure ChatCall where
  temperature : ℚ
  maxTokens : Option Int
deriving Repr

/-- The call made on a given loop attempt for a given request `length`. -/
def mkCall (attempt : Nat) (len : Json) : ChatCall :=
  { temperature := if attempt = 0 then (6 : ℚ) / 10 else 0
    maxTokens := (jsIntValue len).map fun n => n * (if attempt = 0 then 40 else 30) }

/-- Result of the generation loop: either some await threw (`raised`, to be
caught by the handler's outer catch) or the loop finished with
`parsedCaptions = pc`. -/
inductive GenOutcome where
  | raised
  | done (pc : Option Json)
deriving Repr

/-- The `for (let attempt = 0; attempt < 2 && !parsedCaptions; attempt++)`
loop, returning the provider calls actually made along with the outcome.
A second call happens exactly when the first reply was received and its
iteration fell through without `break`. -/
def genLoop (r0 r1 : ProviderReply) (len : Json) : List ChatCall × GenOutcome :=
  match r0 with
  | .raise => ([mkCall 0 len], .raised)
  | .content c0 =>
    match runAttempt (rawOf c0) with
    | .broke pc => ([mkCall 0 len], .done pc)
    | .fallthrough =>
      match r1 with
      | .raise => ([mkCall 0 len, mkCall 1 len], .raised)
      | .content c1 =>
        match runAttempt (rawOf c1) with
        | .broke pc => ([mkCall 0 len, mkCall 1 len], .done pc)
        | .fallthrough => ([mkCall 0 len, mkCall 1 len], .done none)

/-! ### The image lookup (`fetchUnsplashImage`) -/

/-- One photo of the Unsplash search response (the fields the route reads). -/
structure UnsplashPhoto where
  regular : String
  alt_description : Option String
deriving Repr

/-- The parsed Unsplash search response body. -/
structure UnsplashBody where
  results : List UnsplashPhoto
deriving Repr

/-- How the single `fetch` of `fetchUnsplashImage` turns out: the fetch
itself rejects (`reject`), or a response arrives with success flag
`res.ok` and a body that either parses (`some`) or makes `res.json()`
reject (`none`). -/
inductive FetchOutcome where
  | reject
  | resp (ok : Bool) (body : Option UnsplashBody)
deriving Repr

/-- The image the lookup resolves to: `urls.regular` and
`alt_description ?? query`. -/
structure ImageResult where
  url : String
  alt : Json
deriving Repr

/-- Model of `fetchUnsplashImage`. `Except.error` models a rejected
promise propagating to the caller — note the function has no internal
`try`/`catch`, so a transport failure or a body-parse failure escapes;
only a non-success status or an empty result set resolve to `none`. -/
def fetchUnsplashImage (query : Json) (page : Nat) (outcome : FetchOutcome) :
    Except Unit (Option ImageResult) :=
  match outcome with
  | .reject => .error ()
  | .resp ok body =>
    if !ok then .ok none
    else
      match body with
      | none => .error ()
      | some b =>
        match b.results with
        | [] => .ok none
        | p :: _ =>
          .ok (some { url := p.regular
                      alt := match p.alt_description with
                             | some a => strVal a
                             | none => query })

/-! ### The `POST` handler -/

/-- The authenticated session as `getServerSession` yields it: possibly no
session, possibly no user, possibly no email. -/
structure SUser where
  email : Option String
deriving Repr

/-- The session object (only `user` is read). -/
structure Session where
  user : Option SUser
deriving Repr

/-- `!session?.user?.email`: true when the optional chain yields
`undefined`/`null` or the email is the (falsy) empty string. -/
def authFailed (s : Option Session) : Bool :=
  match s with
  | none => true
  | some sess =>
    match sess.user with
    | none => true
    | some u =>
      match u.email with
      | none => true
      | some e => e.isEmpty

/-- One item of the response payload:
`{ caption: c, imageUrl: image?.url ?? null, alt: image?.alt ?? industry }`.
The caption is whatever value sat in the parsed `captions` array — the
route performs no string check on entries. -/
structure Item where
  caption : Json
  imageUrl : Option String
  alt : Json
deriving Repr

/-- Build one response item from the shared image and the topic. -/
def buildItem (image : Option ImageResult) (industry : Json) (c : Json) : Item :=
  { caption := c
    imageUrl := image.map fun i => i.url
    alt := match image with
           | some i => i.alt
           | none => industry }

/-- A response body: a fixed error message or the results sequence. -/
inductive RespBody where
  | errorMsg (msg : String)
  | results (items : List Item)
deriving Repr

/-- An HTTP response: body and status. -/
structure Resp where
  body : RespBody
  status : Nat
deriving Repr

/-- Everything the handler observes from the outside world in one request:
the session, the three body fields (`none` = absent), the two potential
provider replies, the random page, and the image-service outcome. -/
structure ReqWorld where
  session : Option Session
  industry : Option Json
  tone : Option Json
  length : Option Json
  reply0 : ProviderReply
  reply1 : ProviderReply
  randPage : Nat
  image : FetchOutcome

/-- `!industry || !tone || !length`. -/
def missingParams (w : ReqWorld) : Bool :=
  jsFalsyOpt w.industry || jsFalsyOpt w.tone || jsFalsyOpt w.length

/-- The `industry` value once validation passed. -/
def industryOf (w : ReqWorld) : Json := w.industry.getD Json.null

/-- The `length` value once validation passed. -/
def lenOf (w : ReqWorld) : Json := w.length.getD Json.null

/-- The handler's observable outcome: the response plus how many provider
calls were made (the chat calls with their parameters, and the number of
image lookups). -/
structure HandlerOutput where
  resp : Resp
  chatCalls : List ChatCall
  imageCalls : Nat
deriving Repr

/-- The fixed generation-failure message. -/
def genFailMsg : String := "Failed to generate captions"

/-- Model of the `POST` handler. After auth and validation, the `try`
block runs: the generation loop, then `if (!parsedCaptions) throw`, then
the image lookup, then `parsedCaptions.map(...)` — which itself throws
when `parsedCaptions` is not an array — and any throw anywhere in the
block lands in the single `catch` producing the fixed 502 response. -/
def POST (w : ReqWorld) : HandlerOutput :=
  if authFailed w.session then
    { resp := { body := .errorMsg ("Unauthorized"), status := 401 }
      chatCalls := [], imageCalls := 0 }
  else if missingParams w then
    { resp := { body := .errorMsg ("Missing parameters"), status := 400 }
      chatCalls := [], imageCalls := 0 }
  else
    match genLoop w.reply0 w.reply1 (lenOf w) with
    | (calls, .raised) =>
      { resp := { body := .errorMsg genFailMsg, status := 502 }
        chatCalls := calls, imageCalls := 0 }
    | (calls, .done pc) =>
      if jsFalsyOpt pc then
        { resp := { body := .errorMsg genFailMsg, status := 502 }
          chatCalls := calls, imageCalls := 0 }
      else
        match fetchUnsplashImage (industryOf w) w.randPage w.image with
        | .error _ =>
          { resp := { body := .errorMsg genFailMsg, status := 502 }
            chatCalls := calls, imageCalls := 1 }
        | .ok image =>
          match pc with
          | some (Json.arr caps) =>
            { resp := { body := .results (caps.map (buildItem image (industryOf w)))
                        status := 200 }
              chatCalls := calls, imageCalls := 1 }
          | _ =>
            { resp := { body := .errorMsg genFailMsg, status := 502 }
              chatCalls := calls, imageCalls := 1 }

/-! ### Concrete material for the claims -/

/-- A reply wrapped in code-fence markers with a `json` language tag, the
fences on their own lines. -/
def fenceTagWrap (J : List Char) : List Char :=
  [btC, btC, btC, 'j', 's', 'o', 'n', '\n'] ++ J ++ ['\n', btC, btC, btC]

/-- A reply wrapped in bare code-fence markers, the fences on their own
lines. -/
def fencePlainWrap (J : List Char) : List Char :=
  [btC, btC, btC, '\n'] ++ J ++ ['\n', btC, btC, btC]

/-- Does a (case-insensitive) `json` tag start at the head of the list?
Defined via `getD` so that it reduces as soon as the first characters are
known. -/
def tagAt (l : List Char) : Bool :=
  isJsonTag4 (l.getD 0 ' ') (l.getD 1 ' ') (l.getD 2 ' ') (l.getD 3 ' ')
    && decide (4 ≤ l.length)

/-- A logged-in session with a non-empty email. -/
def okSession : Option Session := some { user := some { email := some ("u@x.com") } }

/-- A well-formed baseline request world: authenticated, all three body
fields present and truthy, both replies valid caption JSON, and an image
search that succeeds with one photo carrying no alt text. -/
def baseW : ReqWorld :=
  { session := okSession
    industry := some (strVal ("coffee"))
    tone := some (strVal ("fun"))
    length := some (Json.num ['3'])
    reply0 := .content (some (("\x7b\"captions\":[\"a\",\"b\"]\x7d").toList))
    reply1 := .content (some (("\x7b\"captions\":[\"z\"]\x7d").toList))
    randPage := 4
    image := .resp true (some { results := [{ regular := "https://img/x.jpg"
                                              alt_description := none }] }) }

/-! ### The request-body parse step

`await req.json()` sits between the auth check and the `try` block of the
handler: when the request body is malformed, its rejection escapes the
handler uncaught — the framework answers with its own generic error, and
no handler-built response (in particular not the fixed 502 body) is
produced. `POSTRaw` models the handler from that point of view, with the
body-parse outcome explicit; `POST` above models the handler once the body
has parsed. -/

/-- Outcome of `await req.json()`: a rejection, or a parsed body read
through destructuring of its three fields (`none` = absent). -/
inductive BodyOutcome where
  | raise
  | fields (industry tone length : Option Json)
deriving Repr

/-- The handler's observable world with the body-parse step explicit. -/
structure ReqWorldRaw where
  session : Option Session
  body : BodyOutcome
  reply0 : ProviderReply
  reply1 : ProviderReply
  randPage : Nat
  image : FetchOutcome

/-- The parsed-body world the handler proceeds with once `req.json()` has
succeeded with the given three fields. -/
def toReqWorld (w : ReqWorldRaw) (industry tone length : Option Json) : ReqWorld :=
  { session := w.session, industry := industry, tone := tone, length := length
    reply0 := w.reply0, reply1 := w.reply1, randPage := w.randPage, image := w.image }

/-- What leaves the handler: an uncaught exception (`escaped`), or a
handler-built response with its call trace. -/
inductive HandlerOutcome where
  | escaped
  | responded (out : HandlerOutput)
deriving Repr

/-- The full handler in source order: the auth check, then
`await req.json()` — whose rejection escapes, since the `try` only starts
afterwards — then the rest of the handler, delegated to `POST` (whose own
auth branch merely re-evaluates the same, already-false condition). -/
def POSTRaw (w : ReqWorldRaw) : HandlerOutcome :=
  if authFailed w.session then
    .responded { resp := { body := .errorMsg ("Unauthorized"), status := 401 }
                 chatCalls := [], imageCalls := 0 }
  else
    match w.body with
    | .raise => .escaped
    | .fields industry tone length =>
      .responded (POST (toReqWorld w industry tone length))

/-- The response the caller receives from the handler itself, if any. -/
def respOf (o : HandlerOutcome) : Option Resp :=
  match o with
  | .escaped => none
  | .responded out => some out.resp

/-- The baseline raw world matching `baseW`: same session, replies and
image outcome, with the body parsed to `baseW`'s three fields. -/
def baseWRaw : ReqWorldRaw :=
  { session := okSession
    body := .fields (some (strVal ("coffee"))) (some (strVal ("fun")))
              (some (Json.num ['3']))
    reply0 := baseW.reply0
    reply1 := baseW.reply1
    randPage := 4
    image := baseW.image }

/-! ### Claims about auth and validation -/

/-- C5: a request with no session, no user, or no email field on the user
is answered 401 `{ error: "Unauthorized" }`, and neither the text provider
nor the image provider is called. -/
theorem c5_unauthorized (w : ReqWorld)
    (h : w.session = none
      ∨ (∃ s, w.session = some s ∧ s.user = none)
      ∨ (∃ s u, w.session = some s ∧ s.user = some u ∧ u.email = none)) :
    POST w = { resp := { body := .errorMsg ("Unauthorized"), status := 401 }
               chatCalls := [], imageCalls := 0 } := by
  have ha : authFailed w.session = true := by
    rcases h with h | ⟨s, hs, hu⟩ | ⟨s, u, hs, hu, he⟩
    · simp [h, authFailed]
    · simp [hs, hu, authFailed]
    · simp [hs, hu, he, authFailed]
  simp [POST, ha]

/-- Witness for C5 at a concrete sessionless request. -/
theorem c5_unauthorized_w :
    POST { baseW with session := none }
      = { resp := { body := .errorMsg ("Unauthorized"), status := 401 }
          chatCalls := [], imageCalls := 0 } :=
  c5_unauthorized { baseW with session := none } (Or.inl rfl)

/-- C6: an authenticated request whose body omits `industry`, `tone` or
`length` (any of them) is answered 400 `{ error: "Missing parameters" }`
with no provider call. -/
theorem c6_missing_params (w : ReqWorld)
    (ha : authFailed w.session = false)
    (h : w.industry = none ∨ w.tone = none ∨ w.length = none) :
    POST w = { resp := { body := .errorMsg ("Missing parameters"), status := 400 }
               chatCalls := [], imageCalls := 0 } := by
  have hm : missingParams w = true := by
    rcases h with h | h | h <;> simp [missingParams, h, jsFalsyOpt]
  simp [POST, ha, hm]

/-- Witness for C6 at a concrete request missing `tone`. -/
theorem c6_missing_params_w :
    authFailed baseW.session = false
    ∧ POST { baseW with tone := none }
        = { resp := { body := .errorMsg ("Missing parameters"), status := 400 }
            chatCalls := [], imageCalls := 0 } :=
  ⟨rfl, c6_missing_params { baseW with tone := none } rfl (Or.inr (Or.inl rfl))⟩

/-- C10: a body whose fields are present but falsy — `length = 0`, or
`industry`/`tone` the empty string — receives exactly the same 400
missing-parameters response as an omitted field, with no provider call. -/
theorem c10_falsy_params_rejected (w : ReqWorld)
    (ha : authFailed w.session = false)
    (h : w.industry = some (Json.str [])
      ∨ w.tone = some (Json.str [])
      ∨ w.length = some (Json.num ['0'])) :
    POST w = { resp := { body := .errorMsg ("Missing parameters"), status := 400 }
               chatCalls := [], imageCalls := 0 }
    ∧ POST w = POST { w with industry := none, tone := none, length := none } := by
  have hm : missingParams w = true := by
    rcases h with h | h | h <;>
      simp [missingParams, h, jsFalsyOpt, jsFalsy, numIsZero, List.isEmpty]
  have hm2 : missingParams { w with industry := none, tone := none, length := none }
      = true := by
    simp [missingParams, jsFalsyOpt]
  constructor
  · simp [POST, ha, hm]
  · simp [POST, ha, hm, hm2]

/-- Witness for C10 at a concrete request with `length = 0`. -/
theorem c10_falsy_params_rejected_w :
    authFailed baseW.session = false
    ∧ POST { baseW with length := some (Json.num ['0']) }
        = { resp := { body := .errorMsg ("Missing parameters"), status := 400 }
            chatCalls := [], imageCalls := 0 } :=
  ⟨rfl, (c10_falsy_params_rejected { baseW with length := some (Json.num ['0']) } rfl
     (Or.inr (Or.inr rfl))).1⟩

/-! ### Claims about the generation loop's failure behaviour -/

/-- Helper: once auth and validation pass (on an already-parsed body),
exhausting both attempts without a parseable caption list yields the fixed
502 body, and more generally every outcome of the `try` block is either a
200 results payload or that same fixed error body — an error response
never carries captions. -/
theorem post_try_outcomes (w : ReqWorld)
    (ha : authFailed w.session = false)
    (hm : missingParams w = false) :
    ((genLoop w.reply0 w.reply1 (lenOf w)).2 = GenOutcome.done none →
      (POST w).resp = { body := .errorMsg genFailMsg, status := 502 })
    ∧ ((POST w).resp = { body := .errorMsg genFailMsg, status := 502 }
      ∨ ∃ items, (POST w).resp = { body := RespBody.results items, status := 200 }) := by
  rcases hG : genLoop w.reply0 w.reply1 (lenOf w) with ⟨calls, out⟩
  cases out with
  | raised =>
    refine ⟨fun h => by simp at h, ?_⟩
    left
    simp [POST, ha, hm, hG]
  | done pc =>
    constructor
    · intro h
      simp only [GenOutcome.done.injEq] at h
      subst h
      simp [POST, ha, hm, hG, jsFalsyOpt]
    · by_cases hpc : jsFalsyOpt pc = true
      · left; simp [POST, ha, hm, hG, hpc]
      · rcases hF : fetchUnsplashImage (industryOf w) w.randPage w.image with e | image
        · left; simp [POST, ha, hm, hG, hpc, hF]
        · rcases pc with _ | v
          · simp [jsFalsyOpt] at hpc
          · rcases v with _ | b | lex | u | caps | fs
            · simp [jsFalsyOpt, jsFalsy, isNull] at hpc
            · left; simp [POST, ha, hm, hG, hpc, hF]
            · left; simp [POST, ha, hm, hG, hpc, hF]
            · left; simp [POST, ha, hm, hG, hpc, hF]
            · right
              exact ⟨caps.map (buildItem image (industryOf w)),
                by simp [POST, ha, hm, hG, hpc, hF]⟩
            · left; simp [POST, ha, hm, hG, hpc, hF]

/-- Counterexample to C3 as stated: on an authenticated request whose
body is malformed, `await req.json()` throws before the `try` block
starts, so the error escapes the handler uncaught — no handler-built
response is produced at all, and in particular not the fixed
`{ error: "Failed to generate captions" }` body the claim promises for
every uncaught error on an authenticated request. -/
theorem c3_body_parse_escapes_cex :
    authFailed baseWRaw.session = false
    ∧ POSTRaw { baseWRaw with body := BodyOutcome.raise } = .escaped
    ∧ respOf (POSTRaw { baseWRaw with body := BodyOutcome.raise }) = none :=
  ⟨rfl, rfl, rfl⟩

/-- C3 (amended): on an authenticated request whose body parses,
exhausting both generation attempts yields the fixed 502 body
`{ error: "Failed to generate captions" }`, and every uncaught error
raised inside the handler's `try` block yields that same fixed body with
no partial captions; but an error thrown while parsing the request body
itself (`await req.json()`, which sits outside the `try`) escapes the
handler uncaught, producing no handler-built response. -/
theorem c3_fixed_error_body (w : ReqWorldRaw) (industry tone length : Option Json)
    (ha : authFailed w.session = false) :
    (w.body = BodyOutcome.raise → respOf (POSTRaw w) = none)
    ∧ (w.body = BodyOutcome.fields industry tone length →
        missingParams (toReqWorld w industry tone length) = false →
        (((genLoop w.reply0 w.reply1 (length.getD Json.null)).2 = GenOutcome.done none →
            respOf (POSTRaw w) = some { body := .errorMsg genFailMsg, status := 502 })
          ∧ (respOf (POSTRaw w) = some { body := .errorMsg genFailMsg, status := 502 }
            ∨ ∃ items, respOf (POSTRaw w)
                = some { body := RespBody.results items, status := 200 }))) := by
  constructor
  · intro hb
    simp [POSTRaw, ha, hb, respOf]
  · intro hb hm
    have hdeleg : POSTRaw w = .responded (POST (toReqWorld w industry tone length)) := by
      simp [POSTRaw, ha, hb]
    have hold := post_try_outcomes (toReqWorld w industry tone length) ha hm
    constructor
    · intro hg
      have h1 := hold.1 hg
      simp [hdeleg, respOf, h1]
    · rcases hold.2 with h | ⟨items, h⟩
      · left; simp [hdeleg, respOf, h]
      · right; exact ⟨items, by simp [hdeleg, respOf, h]⟩

/-- Witness for the amended C3: with a parsed body and two garbage
replies, the handler responds with the fixed 502 body; the same
authenticated world with a malformed body instead escapes uncaught. -/
theorem c3_fixed_error_body_w :
    authFailed baseWRaw.session = false
    ∧ respOf (POSTRaw { baseWRaw with reply0 := .content (some (("junk").toList))
                                      reply1 := .content (some (("junk2").toList)) })
        = some { body := .errorMsg genFailMsg, status := 502 }
    ∧ respOf (POSTRaw { baseWRaw with body := BodyOutcome.raise }) = none :=
  ⟨rfl,
    ((c3_fixed_error_body
        { baseWRaw with reply0 := .content (some (("junk").toList))
                        reply1 := .content (some (("junk2").toList)) }
        (some (strVal ("coffee"))) (some (strVal ("fun"))) (some (Json.num ['3']))
        rfl).2 rfl rfl).1 rfl,
    (c3_fixed_error_body { baseWRaw with body := BodyOutcome.raise }
        (some (strVal ("coffee"))) (some (strVal ("fun"))) (some (Json.num ['3']))
        rfl).1 rfl⟩

/-- C9: a first reply that parses to an object whose `captions` field is
the empty array is a success — an empty array is truthy in JS, so the
handler does not throw, and the response is 200 with empty `results`. -/
theorem c9_empty_captions_success (w : ReqWorld) (c0 : List Char)
    (fs : List (List Nat × Json)) (image : Option ImageResult)
    (ha : authFailed w.session = false)
    (hm : missingParams w = false)
    (h0 : w.reply0 = .content (some c0))
    (hp : jsonParse c0 = some (Json.obj fs))
    (hc : lookupLast fs capKey = some (Json.arr []))
    (hi : fetchUnsplashImage (industryOf w) w.randPage w.image = .ok image) :
    (POST w).resp = { body := RespBody.results [], status := 200 } := by
  have hr : runAttempt c0 = .broke (some (Json.arr [])) := by
    simp [runAttempt, hp, isNull, getField, hc]
  simp [POST, ha, hm, genLoop, h0, rawOf, hr, jsFalsyOpt, jsFalsy, hi]

/-- Witness for C9 at a concrete `{"captions":[]}` first reply. -/
theorem c9_empty_captions_success_w :
    jsonParse (("\x7b\"captions\":[]\x7d").toList)
        = some (Json.obj [(capKey, Json.arr [])])
    ∧ (POST { baseW with reply0 := .content (some (("\x7b\"captions\":[]\x7d").toList)) }).resp
        = { body := RespBody.results [], status := 200 } :=
  ⟨rfl,
    c9_empty_captions_success
      { baseW with reply0 := .content (some (("\x7b\"captions\":[]\x7d").toList)) }
      (("\x7b\"captions\":[]\x7d").toList) [(capKey, Json.arr [])]
      (some { url := "https://img/x.jpg", alt := strVal ("coffee") })
      rfl rfl rfl rfl rfl rfl⟩

/-! ### Claims about the response shape -/

/-- Helper: once auth and validation pass, the chat calls reported by the
handler are exactly those of the generation loop, whatever happens
afterwards. -/
theorem post_chatCalls (w : ReqWorld)
    (ha : authFailed w.session = false)
    (hm : missingParams w = false) :
    (POST w).chatCalls = (genLoop w.reply0 w.reply1 (lenOf w)).1 := by
  rcases hG : genLoop w.reply0 w.reply1 (lenOf w) with ⟨calls, out⟩
  cases out with
  | raised => simp [POST, ha, hm, hG]
  | done pc =>
    by_cases hpc : jsFalsyOpt pc = true
    · simp [POST, ha, hm, hG, hpc]
    · rcases hF : fetchUnsplashImage (industryOf w) w.randPage w.image with e | image
      · simp [POST, ha, hm, hG, hpc, hF]
      · rcases pc with _ | v
        · simp [jsFalsyOpt] at hpc
        · cases v <;> simp [POST, ha, hm, hG, hpc, hF]

/-- C8: on a successful request, `results` is exactly one item per
recovered caption in the captions' order (the handler neither pads nor
truncates), every item shares the one image lookup's URL and alt, and when
the lookup resolved to absent every item's `imageUrl` is null and its
`alt` is the topic string. -/
theorem c8_results_shape (w : ReqWorld) (caps : List Json) (image : Option ImageResult)
    (ha : authFailed w.session = false)
    (hm : missingParams w = false)
    (hg : (genLoop w.reply0 w.reply1 (lenOf w)).2 = .done (some (Json.arr caps)))
    (hi : fetchUnsplashImage (industryOf w) w.randPage w.image = .ok image) :
    (POST w).resp = { body := RespBody.results (caps.map (buildItem image (industryOf w)))
                      status := 200 }
    ∧ (caps.map (buildItem image (industryOf w))).length = caps.length
    ∧ (∀ i : Fin caps.length,
        (caps.map (buildItem image (industryOf w))).get (i.cast (by simp))
          = buildItem image (industryOf w) (caps.get i))
    ∧ (∀ it ∈ caps.map (buildItem image (industryOf w)),
        it.imageUrl = image.map (fun i => i.url))
    ∧ (image = none → ∀ it ∈ caps.map (buildItem image (industryOf w)),
        it.imageUrl = none ∧ it.alt = industryOf w) := by
  rcases hG : genLoop w.reply0 w.reply1 (lenOf w) with ⟨calls, out⟩
  rw [hG] at hg
  simp only at hg
  subst hg
  refine ⟨?_, by simp, ?_, ?_, ?_⟩
  · simp [POST, ha, hm, hG, jsFalsyOpt, jsFalsy, hi]
  · intro i
    simp
  · intro it hit
    rcases List.mem_map.mp hit with ⟨c, _, hc⟩
    subst hc
    simp [buildItem]
  · intro h it hit
    subst h
    rcases List.mem_map.mp hit with ⟨c, _, hc⟩
    subst hc
    simp [buildItem]

/-- Witness for C8: a concrete request whose image search returns HTTP
success with zero results — two captions come back as two items, both with
null `imageUrl` and the topic as `alt`. -/
theorem c8_results_shape_w :
    (genLoop ({ baseW with image := .resp true (some { results := [] }) } : ReqWorld).reply0
        ({ baseW with image := .resp true (some { results := [] }) } : ReqWorld).reply1
        (lenOf { baseW with image := .resp true (some { results := [] }) })).2
      = .done (some (Json.arr [strVal ("a"), strVal ("b")]))
    ∧ (POST { baseW with image := .resp true (some { results := [] }) }).resp
        = { body := RespBody.results
              ([strVal ("a"), strVal ("b")].map
                (buildItem none (industryOf { baseW with image := .resp true (some { results := [] }) })))
            status := 200 } :=
  ⟨rfl,
    (c8_results_shape { baseW with image := .resp true (some { results := [] }) }
      [strVal ("a"), strVal ("b")] none rfl rfl rfl rfl).1⟩

/-! ### Claims about the provider-call policy -/

/-- Helper: the generation loop makes one or two calls, with the fixed
first-attempt and second-attempt parameters. -/
theorem genLoop_calls (r0 r1 : ProviderReply) (len : Json) :
    (genLoop r0 r1 len).1 = [mkCall 0 len]
    ∨ (genLoop r0 r1 len).1 = [mkCall 0 len, mkCall 1 len] := by
  cases r0 with
  | raise => left; simp [genLoop]
  | content c0 =>
    cases hr : runAttempt (rawOf c0) with
    | broke pc => left; simp [genLoop, hr]
    | fallthrough =>
      cases r1 with
      | raise => right; simp [genLoop, hr]
      | content c1 =>
        cases hr1 : runAttempt (rawOf c1) with
        | broke pc => right; simp [genLoop, hr, hr1]
        | fallthrough => right; simp [genLoop, hr, hr1]

/-- Helper: a second provider call is made only when a first reply arrived
and its whole iteration (direct parse and recovery parse) produced no
`break`. -/
theorem genLoop_two_calls (r0 r1 : ProviderReply) (len : Json)
    (h : (genLoop r0 r1 len).1.length = 2) :
    ∃ c0, r0 = .content c0 ∧ runAttempt (rawOf c0) = .fallthrough := by
  cases r0 with
  | raise => simp [genLoop] at h
  | content c0 =>
    cases hr : runAttempt (rawOf c0) with
    | broke pc => simp [genLoop, hr] at h
    | fallthrough => exact ⟨c0, rfl, hr⟩

/-- C4: the handler makes at most two provider calls — the first with
temperature 0.6 and a `length * 40` token budget, the second (made only
when the first reply's direct and recovery parses both fail to set
captions) with temperature 0 and the reduced `length * 30` budget; and
when the first reply falls through while the second parses to a
`captions` array, the request succeeds with exactly the second reply's
captions. -/
theorem c4_call_policy (w : ReqWorld) (lex : List Char) (n : Int)
    (ha : authFailed w.session = false)
    (hm : missingParams w = false)
    (hlen : w.length = some (Json.num lex))
    (hn : lexInt lex = some n) :
    ((POST w).chatCalls = [{ temperature := (6 : ℚ) / 10, maxTokens := some (n * 40) }]
      ∨ (POST w).chatCalls
          = [{ temperature := (6 : ℚ) / 10, maxTokens := some (n * 40) },
             { temperature := 0, maxTokens := some (n * 30) }])
    ∧ ((POST w).chatCalls.length = 2 →
        ∃ c0, w.reply0 = .content c0 ∧ runAttempt (rawOf c0) = .fallthrough)
    ∧ (∀ c0 c1 fs caps image,
        w.reply0 = .content c0 → runAttempt (rawOf c0) = .fallthrough →
        w.reply1 = .content (some c1) →
        jsonParse c1 = some (Json.obj fs) →
        lookupLast fs capKey = some (Json.arr caps) →
        fetchUnsplashImage (industryOf w) w.randPage w.image = .ok image →
        (POST w).resp
          = { body := RespBody.results (caps.map (buildItem image (industryOf w)))
              status := 200 }) := by
  have hlen0 : lenOf w = Json.num lex := by simp [lenOf, hlen]
  have hc0 : mkCall 0 (lenOf w)
      = { temperature := (6 : ℚ) / 10, maxTokens := some (n * 40) } := by
    simp [mkCall, hlen0, jsIntValue, hn]
  have hc1 : mkCall 1 (lenOf w)
      = { temperature := 0, maxTokens := some (n * 30) } := by
    simp [mkCall, hlen0, jsIntValue, hn]
  have hcalls : (POST w).chatCalls = (genLoop w.reply0 w.reply1 (lenOf w)).1 :=
    post_chatCalls w ha hm
  refine ⟨?_, ?_, ?_⟩
  · rcases genLoop_calls w.reply0 w.reply1 (lenOf w) with h | h
    · left; rw [hcalls, h, hc0]
    · right; rw [hcalls, h, hc0, hc1]
  · intro h2
    exact genLoop_two_calls w.reply0 w.reply1 (lenOf w) (by rw [← hcalls]; exact h2)
  · intro c0 c1 fs caps image h0 hr0 h1 hp1 hcap hi
    have hr1 : runAttempt c1 = .broke (some (Json.arr caps)) := by
      simp [runAttempt, hp1, isNull, getField, hcap]
    have hfal : jsFalsyOpt (some (Json.arr caps)) = false := rfl
    have hraw : rawOf (some c1) = c1 := rfl
    simp [POST, ha, hm, genLoop, h0, hr0, h1, hraw, hr1, hfal, hi]

/-- Witness for C4 at a concrete request (`length = 3`, first reply
garbage): the call trace is the two-call one with budgets 120 and 90. -/
theorem c4_call_policy_w :
    lexInt ['3'] = some 3
    ∧ ((POST { baseW with reply0 := .content (some (("junk").toList)) }).chatCalls
          = [{ temperature := (6 : ℚ) / 10, maxTokens := some ((3 : Int) * 40) }]
      ∨ (POST { baseW with reply0 := .content (some (("junk").toList)) }).chatCalls
          = [{ temperature := (6 : ℚ) / 10, maxTokens := some ((3 : Int) * 40) },
             { temperature := 0, maxTokens := some ((3 : Int) * 30) }]) :=
  ⟨rfl,
    (c4_call_policy { baseW with reply0 := .content (some (("junk").toList)) }
      ['3'] 3 rfl rfl rfl rfl).1⟩

/-! ### C1: what a parse success actually does to the loop -/

/-- Counterexample to C1 as stated. First scenario: the first reply
`{"wrong":1}` parses as JSON but has no `captions` field, and the claim
says this triggers the retry path exactly like unparsable JSON — but the
handler makes only one provider call and fails 502, even though the second
reply (`{"captions":["z"]}`, as in `baseW`) would have succeeded; by
contrast the same request with an unparsable first reply does make the
second call and succeeds. Second scenario: a `captions` array with a
non-string entry is not treated as malformed — the request succeeds with
the number `1` as a caption. -/
theorem c1_missing_captions_cex :
    (POST { baseW with reply0 := .content (some (("\x7b\"wrong\":1\x7d").toList)) }).resp
        = { body := .errorMsg genFailMsg, status := 502 }
    ∧ (POST { baseW with reply0 := .content (some (("\x7b\"wrong\":1\x7d").toList)) }).chatCalls.length
        = 1
    ∧ (POST { baseW with reply0 := .content (some (("junk").toList)) }).chatCalls.length = 2
    ∧ (POST { baseW with reply0 := .content (some (("junk").toList)) }).resp.status = 200
    ∧ (POST { baseW with reply0 := .content (some (("\x7b\"captions\":[1]\x7d").toList)) }).resp
        = { body := RespBody.results
              [{ caption := Json.num ['1'], imageUrl := some ("https://img/x.jpg")
                 alt := strVal ("coffee") }]
            status := 200 } :=
  ⟨rfl, rfl, rfl, rfl, rfl⟩

/-- C1 (amended): a reply whose text parses as JSON to anything but `null`
always reaches `break` with `parsedCaptions` set to the raw value of its
`captions` property — no check that it is an array of strings — so the
loop ends after one call; and when that property is absent or falsy the
request fails 502 without a second provider call. Only a parse failure
(or a reply parsing to `null`, where the property access throws) reaches
the recovery/retry path. -/
theorem c1_parse_success_breaks_loop (w : ReqWorld) (c0 : Option (List Char)) (v : Json)
    (ha : authFailed w.session = false)
    (hm : missingParams w = false)
    (h0 : w.reply0 = .content c0)
    (hp : jsonParse (rawOf c0) = some v)
    (hnn : isNull v = false) :
    runAttempt (rawOf c0) = .broke (getField v capKey)
    ∧ (POST w).chatCalls = [mkCall 0 (lenOf w)]
    ∧ (jsFalsyOpt (getField v capKey) = true →
        (POST w).resp = { body := .errorMsg genFailMsg, status := 502 }) := by
  have hr : runAttempt (rawOf c0) = .broke (getField v capKey) := by
    simp [runAttempt, hp, hnn]
  refine ⟨hr, ?_, ?_⟩
  · rw [post_chatCalls w ha hm]
    simp [genLoop, h0, hr]
  · intro hfal
    simp [POST, ha, hm, genLoop, h0, hr, hfal]

/-- Witness for the amended C1 at the concrete `{"wrong":1}` first reply:
one call, fixed 502. -/
theorem c1_parse_success_breaks_loop_w :
    jsonParse (rawOf (some (("\x7b\"wrong\":1\x7d").toList)))
        = some (Json.obj [(strUnits ("wrong"), Json.num ['1'])])
    ∧ (POST { baseW with reply0 := .content (some (("\x7b\"wrong\":1\x7d").toList)) }).chatCalls
        = [mkCall 0 (lenOf { baseW with reply0 := .content (some (("\x7b\"wrong\":1\x7d").toList)) })]
    ∧ (POST { baseW with reply0 := .content (some (("\x7b\"wrong\":1\x7d").toList)) }).resp
        = { body := .errorMsg genFailMsg, status := 502 } :=
  ⟨rfl,
    (c1_parse_success_breaks_loop
      { baseW with reply0 := .content (some (("\x7b\"wrong\":1\x7d").toList)) }
      (some (("\x7b\"wrong\":1\x7d").toList))
      (Json.obj [(strUnits ("wrong"), Json.num ['1'])]) rfl rfl rfl rfl rfl).2.1,
    (c1_parse_success_breaks_loop
      { baseW with reply0 := .content (some (("\x7b\"wrong\":1\x7d").toList)) }
      (some (("\x7b\"wrong\":1\x7d").toList))
      (Json.obj [(strUnits ("wrong"), Json.num ['1'])]) rfl rfl rfl rfl rfl).2.2 rfl⟩

/-! ### C2: image-lookup failure handling -/

/-- Counterexample to C2 as stated: with perfectly good captions, a
transport-level fetch failure (`fetch` rejecting) does not resolve to
"absent" — `fetchUnsplashImage` has no internal catch, the rejection
reaches the handler's outer catch, and the request aborts with the generic
502 instead of returning the captions. -/
theorem c2_transport_error_aborts_cex :
    fetchUnsplashImage (strVal ("coffee")) 4 FetchOutcome.reject = Except.error ()
    ∧ (POST { baseW with image := .reject }).resp
        = { body := .errorMsg genFailMsg, status := 502 } :=
  ⟨rfl, rfl⟩

/-- C2 (amended): a non-success HTTP status or an empty result set from
the image search resolves to "absent" and the request still returns the
recovered captions with fallback `imageUrl`/`alt` values; but a
transport-level fetch rejection is not caught inside the lookup — it
propagates to the handler's outer catch and aborts the response with the
generic 502. -/
theorem c2_image_degrade_amended (w : ReqWorld) (caps : List Json)
    (ha : authFailed w.session = false)
    (hm : missingParams w = false)
    (hg : (genLoop w.reply0 w.reply1 (lenOf w)).2 = .done (some (Json.arr caps))) :
    (∀ q p b, fetchUnsplashImage q p (FetchOutcome.resp false b) = .ok none)
    ∧ (∀ q p, fetchUnsplashImage q p (FetchOutcome.resp true (some { results := [] }))
        = .ok none)
    ∧ (∀ b, w.image = FetchOutcome.resp false b
        ∨ w.image = FetchOutcome.resp true (some { results := [] }) →
        (POST w).resp
          = { body := RespBody.results
                (caps.map fun c =>
                  { caption := c, imageUrl := none, alt := industryOf w })
              status := 200 })
    ∧ (w.image = FetchOutcome.reject →
        (POST w).resp = { body := .errorMsg genFailMsg, status := 502 }) := by
  have habs : ∀ q p b, fetchUnsplashImage q p (FetchOutcome.resp false b) = .ok none := by
    intro q p b; simp [fetchUnsplashImage]
  have hemp : ∀ q p,
      fetchUnsplashImage q p (FetchOutcome.resp true (some { results := [] }))
        = .ok none := by
    intro q p; simp [fetchUnsplashImage]
  rcases hG : genLoop w.reply0 w.reply1 (lenOf w) with ⟨calls, out⟩
  rw [hG] at hg
  simp only at hg
  subst hg
  have hfal : jsFalsyOpt (some (Json.arr caps)) = false := rfl
  have hbuild : (buildItem none (industryOf w))
      = fun c => { caption := c, imageUrl := none, alt := industryOf w } := by
    funext c; simp [buildItem]
  refine ⟨habs, hemp, ?_, ?_⟩
  · intro b hb
    rcases hb with hb | hb
    · have : fetchUnsplashImage (industryOf w) w.randPage w.image = .ok none := by
        rw [hb]; exact habs _ _ _
      simp [POST, ha, hm, hG, hfal, this, hbuild]
    · have : fetchUnsplashImage (industryOf w) w.randPage w.image = .ok none := by
        rw [hb]; exact hemp _ _
      simp [POST, ha, hm, hG, hfal, this, hbuild]
  · intro hb
    have : fetchUnsplashImage (industryOf w) w.randPage w.image = .error () := by
      rw [hb]; rfl
    simp [POST, ha, hm, hG, hfal, this]

/-- Witness for the amended C2: concrete request whose image search
returns a non-success status — captions still come back with null
`imageUrl` and the topic as `alt`. -/
theorem c2_image_degrade_amended_w :
    (genLoop ({ baseW with image := .resp false none } : ReqWorld).reply0
        ({ baseW with image := .resp false none } : ReqWorld).reply1
        (lenOf { baseW with image := .resp false none })).2
      = .done (some (Json.arr [strVal ("a"), strVal ("b")]))
    ∧ (POST { baseW with image := .resp false none }).resp
        = { body := RespBody.results
              ([strVal ("a"), strVal ("b")].map fun c =>
                { caption := c, imageUrl := none
                  alt := industryOf { baseW with image := .resp false none } })
            status := 200 } :=
  ⟨rfl,
    (c2_image_degrade_amended { baseW with image := .resp false none }
      [strVal ("a"), strVal ("b")] rfl rfl rfl).2.2.1 none (Or.inl rfl)⟩

/-! ### C7: fence-wrapping and the recovery pipeline -/

/-- Helper: the fence scanner passes over a non-backtick character. -/
theorem goNonBt (f : Nat) (c : Char) (l : List Char) (hc : ¬ c = btC) :
    stripFencesGo (Nat.succ f) (c :: l) = c :: stripFencesGo f l := by
  simp [stripFencesGo, hc]

/-- Helper: the fence scanner removes a ```` ```json ```` opener whole. -/
theorem goTagJson (f : Nat) (l : List Char) :
    stripFencesGo (Nat.succ f)
        (btC :: btC :: btC :: 'j' :: 's' :: 'o' :: 'n' :: l)
      = stripFencesGo f l := rfl

/-- Helper: the fence scanner removes three backticks not followed by a
`json` tag, continuing right after them. -/
theorem goFenceNoTag (f : Nat) (r3 : List Char) (h : tagAt r3 = false) :
    stripFencesGo (Nat.succ f) (btC :: btC :: btC :: r3) = stripFencesGo f r3 := by
  rcases r3 with _ | ⟨d1, _ | ⟨d2, _ | ⟨d3, _ | ⟨d4, r7⟩⟩⟩⟩
  · rfl
  · rfl
  · rfl
  · rfl
  · have ht : isJsonTag4 d1 d2 d3 d4 = false := by simpa [tagAt] using h
    simp [stripFencesGo, ht]

/-- Helper: the scanner copies a backtick-free prefix unchanged (with the
fuel bookkeeping made explicit). -/
theorem goAppend (l₁ l₂ : List Char) (f : Nat) (h : ∀ c ∈ l₁, c ≠ btC) :
    stripFencesGo (l₁.length + f) (l₁ ++ l₂) = l₁ ++ stripFencesGo f l₂ := by
  induction l₁ with
  | nil => simp
  | cons c t ih =>
    have hc : ¬ c = btC := h c (List.mem_cons_self c t)
    have ht : ∀ x ∈ t, x ≠ btC := fun x hx => h x (List.mem_cons_of_mem c hx)
    have e : (c :: t).length + f = Nat.succ (t.length + f) := by simp; omega
    rw [List.cons_append, e, goNonBt _ _ _ hc, ih ht]
    simp

/-- Helper: stripping the tagged wrapper leaves the payload between two
newlines, provided the payload itself holds no backtick. -/
theorem strip_wrap_tag (J : List Char) (hbt : ∀ c ∈ J, c ≠ btC) :
    stripFences (fenceTagWrap J) = '\n' :: (J ++ ['\n']) := by
  have e : (fenceTagWrap J).length = Nat.succ (J.length + 11) := by
    simp [fenceTagWrap]
  have e2 : fenceTagWrap J
      = btC :: btC :: btC :: 'j' :: 's' :: 'o' :: 'n' :: '\n'
          :: (J ++ ['\n', btC, btC, btC]) := by
    simp [fenceTagWrap]
  have etail : stripFencesGo 10 ['\n', btC, btC, btC] = ['\n'] := rfl
  simp only [stripFences]
  rw [e, e2, goTagJson]
  rw [show J.length + 11 = Nat.succ (J.length + 10) by omega]
  rw [goNonBt _ _ _ (by decide)]
  rw [goAppend J _ 10 hbt, etail]

/-- Helper: stripping the untagged wrapper gives the same result. -/
theorem strip_wrap_plain (J : List Char) (hbt : ∀ c ∈ J, c ≠ btC) :
    stripFences (fencePlainWrap J) = '\n' :: (J ++ ['\n']) := by
  have e : (fencePlainWrap J).length = Nat.succ (J.length + 7) := by
    simp [fencePlainWrap]
  have e2 : fencePlainWrap J
      = btC :: btC :: btC :: ('\n' :: (J ++ ['\n', btC, btC, btC])) := by
    simp [fencePlainWrap]
  have htag : tagAt ('\n' :: (J ++ ['\n', btC, btC, btC])) = false := rfl
  have etail : stripFencesGo 10 ['\n', btC, btC, btC] = ['\n'] := rfl
  simp only [stripFences]
  rw [e, e2, goFenceNoTag _ _ htag]
  rw [show J.length + 7 = Nat.succ (J.length + 6) by omega]
  rw [goNonBt _ _ _ (by decide)]
  have e3 : J.length + 6 = J.length + 6 := rfl
  rw [goAppend J _ 6 hbt]
  have etail6 : stripFencesGo 6 ['\n', btC, btC, btC] = ['\n'] := rfl
  rw [etail6]

/-- Helper: trimming the newline padding around a brace-delimited payload
recovers the payload. -/
theorem trim_pad (J : List Char) (hh : J.head? = some lbraceC)
    (hl : J.getLast? = some rbraceC) :
    trimChars ('\n' :: (J ++ ['\n'])) = J := by
  have w1 : jsTrimWs '\n' = true := by decide
  have wlb : jsTrimWs lbraceC = false := by decide
  have wrb : jsTrimWs rbraceC = false := by decide
  rcases J with _ | ⟨c, t⟩
  · simp at hh
  · have hc : c = lbraceC := by simpa using hh
    subst hc
    have h1 : ('\n' :: (lbraceC :: t ++ ['\n'])).dropWhile jsTrimWs
        = lbraceC :: t ++ ['\n'] := by
      simp [List.dropWhile_cons, w1, wlb]
    have h3 : ((lbraceC :: t).reverse).head? = some rbraceC := by
      rw [List.head?_reverse]; exact hl
    rcases hR : (lbraceC :: t).reverse with _ | ⟨r, rt⟩
    · simp at hR
    · have hr : r = rbraceC := by rw [hR] at h3; simpa using h3
      subst hr
      have h2 : (lbraceC :: t ++ ['\n']).reverse = '\n' :: (rbraceC :: rt) := by
        rw [show (lbraceC :: t ++ ['\n']) = (lbraceC :: t) ++ ['\n'] from rfl,
          List.reverse_append, hR]
        rfl
      unfold trimChars
      rw [h1, h2]
      simp only [List.dropWhile_cons, w1, wrb]
      simp only [if_true, if_false, Bool.false_eq_true]
      rw [← hR, List.reverse_reverse]

/-- Helper: the brace-span regex returns a brace-delimited text whole. -/
theorem braceSpan_self (J : List Char) (hh : J.head? = some lbraceC)
    (hl : J.getLast? = some rbraceC) :
    braceSpan J = some J := by
  rcases J with _ | ⟨c, t⟩
  · simp at hh
  · have hc : c = lbraceC := by simpa using hh
    subst hc
    have hfi : (lbraceC :: t).findIdx? (fun c => c = lbraceC) = some 0 := by
      simp [List.findIdx?_cons]
    have h3 : ((lbraceC :: t).reverse).head? = some rbraceC := by
      rw [List.head?_reverse]; exact hl
    rcases hR : (lbraceC :: t).reverse with _ | ⟨r, rt⟩
    · simp at hR
    · have hr : r = rbraceC := by rw [hR] at h3; simpa using h3
      subst hr
      have hfr : ((lbraceC :: t).reverse).findIdx? (fun c => c = rbraceC) = some 0 := by
        rw [hR]; simp [List.findIdx?_cons]
      have hlen2 : 2 ≤ (lbraceC :: t).length := by
        rcases t with _ | ⟨a, u⟩
        · exfalso
          have : lbraceC = rbraceC := by simpa using hl
          exact absurd this (by decide)
        · simp
      unfold braceSpan
      rw [hfi, hfr]
      simp only
      rw [if_pos (by omega)]
      congr 1
      rw [List.drop_zero]
      rw [show (lbraceC :: t).length - 1 - 0 - 0 + 1 = (lbraceC :: t).length by omega]
      exact List.take_length _

/-- Helper: the parser rejects any text whose first character is a
backtick (fences make the direct parse fail). -/
theorem jsonParse_btHead (X : List Char) : jsonParse (btC :: X) = none := rfl

/-- Counterexample to C7 as stated: the valid JSON object
`{"captions":["```"]}` (whose single caption is three backticks) yields
the captions `["```"]` when fed to the extraction step directly, but its
fence-wrapped form yields `[""]` — the fence-stripping regex also deletes
the backticks inside the caption string — so wrapping is not neutral for
every valid object. -/
theorem c7_fence_idempotence_cex :
    jsonParse (("\x7b\"captions\":[\"```\"]\x7d").toList)
        = some (Json.obj [(capKey, Json.arr [Json.str [96, 96, 96]])])
    ∧ runAttempt (("\x7b\"captions\":[\"```\"]\x7d").toList)
        = .broke (some (Json.arr [Json.str [96, 96, 96]]))
    ∧ runAttempt (fenceTagWrap (("\x7b\"captions\":[\"```\"]\x7d").toList))
        = .broke (some (Json.arr [Json.str []]))
    ∧ Json.str ([96, 96, 96] : List Nat) ≠ Json.str [] :=
  ⟨rfl, rfl, rfl, by simp⟩

/-- C7 (amended): for a text `J` that is a valid JSON object with a
`captions` array of strings, written brace-to-brace (no surrounding
whitespace) and containing no backtick characters, feeding the extraction
step `J` wrapped in code fences — with or without the `json` tag, fences
on their own lines — produces exactly the same outcome as feeding it `J`
directly. -/
theorem c7_fence_idempotence_amended (J : List Char)
    (fs : List (List Nat × Json)) (caps : List Json)
    (hp : jsonParse J = some (Json.obj fs))
    (hbt : ∀ c ∈ J, c ≠ btC)
    (hh : J.head? = some lbraceC)
    (hl : J.getLast? = some rbraceC)
    (hcap : lookupLast fs capKey = some (Json.arr caps))
    (hstr : ∀ x ∈ caps, ∃ u, x = Json.str u) :
    runAttempt (fenceTagWrap J) = runAttempt J
    ∧ runAttempt (fencePlainWrap J) = runAttempt J
    ∧ runAttempt J = .broke (some (Json.arr caps)) := by
  have hJ : runAttempt J = .broke (some (Json.arr caps)) := by
    simp [runAttempt, hp, isNull, getField, hcap]
  have key : ∀ W : List Char, jsonParse W = none →
      stripFences W = '\n' :: (J ++ ['\n']) →
      runAttempt W = .broke (some (Json.arr caps)) := by
    intro W hpW hsW
    have hext : extractJson W = some J := by
      unfold extractJson
      rw [hsW, trim_pad J hh hl, braceSpan_self J hh hl]
    simp [runAttempt, hpW, recoverStep, hext, hp, isNull, getField, hcap]
  refine ⟨?_, ?_, hJ⟩
  · rw [hJ]
    exact key (fenceTagWrap J)
      (by
        rw [show fenceTagWrap J
            = btC :: (btC :: btC :: 'j' :: 's' :: 'o' :: 'n' :: '\n'
                :: (J ++ ['\n', btC, btC, btC])) by simp [fenceTagWrap]]
        exact jsonParse_btHead _)
      (strip_wrap_tag J hbt)
  · rw [hJ]
    exact key (fencePlainWrap J)
      (by
        rw [show fencePlainWrap J
            = btC :: (btC :: btC :: '\n' :: (J ++ ['\n', btC, btC, btC]))
            by simp [fencePlainWrap]]
        exact jsonParse_btHead _)
      (strip_wrap_plain J hbt)

/-- Witness for the amended C7 at the concrete object
`{"captions":["a"]}`: both wrapped forms extract the same captions as the
unwrapped text. -/
theorem c7_fence_idempotence_amended_w :
    jsonParse (("\x7b\"captions\":[\"a\"]\x7d").toList)
        = some (Json.obj [(capKey, Json.arr [Json.str [97]])])
    ∧ (∀ c ∈ ("\x7b\"captions\":[\"a\"]\x7d").toList, c ≠ btC)
    ∧ runAttempt (fenceTagWrap (("\x7b\"captions\":[\"a\"]\x7d").toList))
        = runAttempt (("\x7b\"captions\":[\"a\"]\x7d").toList)
    ∧ runAttempt (fencePlainWrap (("\x7b\"captions\":[\"a\"]\x7d").toList))
        = runAttempt (("\x7b\"captions\":[\"a\"]\x7d").toList) :=
  ⟨rfl, by decide,
    (c7_fence_idempotence_amended (("\x7b\"captions\":[\"a\"]\x7d").toList)
      [(capKey, Json.arr [Json.str [97]])] [Json.str [97]]
      rfl (by decide) rfl rfl rfl
      (fun x hx => ⟨[97], by simpa using hx⟩)).1,
    (c7_fence_idempotence_amended (("\x7b\"captions\":[\"a\"]\x7d").toList)
      [(capKey, Json.arr [Json.str [97]])] [Json.str [97]]
      rfl (by decide) rfl rfl rfl
      (fun x hx => ⟨[97], by simpa using hx⟩)).2.1⟩
